import Mathlib

set_option maxRecDepth 8192

/-!
Shallow embedding of the ai-companion-server streaming pipeline
(`app/models/schemas.py`, `app/services/agent_service.py`,
`app/routers/chat.py`), the memory store (`app/services/memory_service.py`)
and the workspace path resolver (`app/services/workspace_service.py`),
together with theorems settling the frozen claims about the spec.

Python values that flow through event payloads and the `extra_data` JSON
column are modelled by the small value type `PyVal`; Python truthiness is
modelled explicitly (`pyTruthy`).
-/

/-- A JSON-like Python value as it appears in event payloads and the
`extra_data` / `messages` JSON columns. -/
inductive PyVal where
  | vStr (s : String)
  | vBool (b : Bool)
  | vDict (kvs : List (String × PyVal))
  | vList (xs : List PyVal)
  | vNone

/-- Python truthiness of a `PyVal` (`if value:`): empty string, `False`,
empty dict, empty list and `None` are falsy. -/
def pyTruthy : PyVal → Bool
  | .vStr s => s ≠ ""
  | .vBool b => b
  | .vDict kvs => !kvs.isEmpty
  | .vList xs => !xs.isEmpty
  | .vNone => false

/-- Truthiness of an optional value (`None` is falsy). -/
def pyTruthyOpt : Option PyVal → Bool
  | some v => pyTruthy v
  | none => false

/-- Truthiness of an `Optional[str]` (`None` and `""` are falsy). -/
def truthyOptStr : Option String → Bool
  | some s => s ≠ ""
  | none => false

/-- A payload dict: insertion-ordered key/value pairs (Python `dict`). -/
abbrev Payload := List (String × PyVal)

/-- `d.get(k)`: first binding of `k`, if any. -/
def Payload.get (d : Payload) (k : String) : Option PyVal :=
  (d.find? (fun p => p.1 == k)).map (·.2)

/-- `d.get(k, "")` restricted to string values, as used for
`event.data.get("text", "")` in `chat.py`. -/
def Payload.getStr (d : Payload) (k : String) : String :=
  match d.get k with
  | some (.vStr s) => s
  | _ => ""

/-! ## `app/models/schemas.py` -/

/-- The declared fields of `ChatRequest` (schemas.py lines 21-27). -/
def chatRequestFields : List String :=
  ["message", "conversation_id", "session_id", "include_memory",
   "tools_enabled", "stream"]

/-- The `request.<attr>` attributes dereferenced by
`app/routers/chat.py::stream_chat` (lines 57-95). -/
def streamChatRequestAttrsRead : List String :=
  ["conversation_id", "reset_session", "session_id", "include_memory",
   "message"]

/-- `ChatRequest` (schemas.py): the pydantic request model.  Note that it
declares no `reset_session` field even though `chat.py` reads one. -/
structure ChatRequest where
  message : String
  conversation_id : Option String := none
  session_id : Option String := none
  include_memory : Bool := true
  tools_enabled : Bool := true
  stream : Bool := true

/-- The closed `Literal` of `ChatStreamEvent.event_type`
(schemas.py lines 45-59), exactly as listed in the source. -/
def chatStreamEventTypes : List String :=
  ["conversation_id", "session_id", "message_start", "content_delta",
   "content_stop", "tool_use_start", "tool_use_delta", "tool_use_stop",
   "tool_result", "message_stop", "error", "thinking_start",
   "thinking_stop"]

/-- A constructed `ChatStreamEvent` (event type plus data payload;
the timestamp field carries no claim-relevant information). -/
structure ChatStreamEvent where
  event_type : String
  data : Payload

/-- `ToolCall` (schemas.py lines 30-34). -/
structure ToolCall where
  id : String
  name : String
  input : Payload
  status : String

/-- `ToolCall.model_dump()` as a `PyVal` dict. -/
def ToolCall.dump (tc : ToolCall) : PyVal :=
  .vDict [("id", .vStr tc.id), ("name", .vStr tc.name),
          ("input", .vDict tc.input), ("status", .vStr tc.status)]

/-! ## Upstream messages (`claude_agent_sdk.types`) -/

/-- Content blocks inside an upstream `AssistantMessage`. -/
inductive ContentBlock where
  | textBlock (text : String)
  | thinkingBlock (thinking : String)
  | toolUseBlock (id : String) (name : String) (input : Payload)
  | toolResultBlock (tool_use_id : String) (content : String) (is_error : Bool)

/-- Upstream-native messages delivered by `client.receive_response()`.
`systemMessage` carries its `subtype` and `data` dict; the payload details
of `UserMessage` / `StreamEvent` / `ResultMessage` dumps are irrelevant to
every claim and are represented by their (claim-relevant) event envelope
only. -/
inductive UpMsg where
  | systemMessage (subtype : String) (data : Payload)
  | userMessage
  | streamEvent
  | assistantMessage (content : List ContentBlock)
  | resultMessage

/-- One adapter run: the messages the upstream stream yields, and whether
it then ends normally or raises (with `str(e)` and `type(e).__name__`). -/
inductive AdapterRun where
  | ok (msgs : List UpMsg)
  | fail (msgs : List UpMsg) (err : String) (etype : String)

/-! ## Stream normalizer (`app/services/agent_service.py`) -/

/-- Python dict assignment `d[k] = v`: replace the binding in place when
the key is present (keys are unique by construction), otherwise append. -/
def toolDictSet : List (String × ToolCall) → String → ToolCall →
    List (String × ToolCall)
  | [], k, v => [(k, v)]
  | (a, w) :: tl, k, v =>
      if a == k then (k, v) :: tl else (a, w) :: toolDictSet tl k v

/-- `dataclasses.asdict` encoding of a content block, as it appears inside
the `assistant_message` envelope payload. -/
def encodeBlock : ContentBlock → PyVal
  | .textBlock t => .vDict [("text", .vStr t)]
  | .thinkingBlock t => .vDict [("thinking", .vStr t)]
  | .toolUseBlock id name input =>
      .vDict [("id", .vStr id), ("name", .vStr name), ("input", .vDict input)]
  | .toolResultBlock tool_use_id content is_error =>
      .vDict [("tool_use_id", .vStr tool_use_id), ("content", .vStr content),
              ("is_error", .vBool is_error)]

/-- One content block of an `AssistantMessage` (agent_service.py lines
250-297): the events its branch constructs, in order, and the updated
`active_tool_calls` dict.  A `ToolResultBlock` always constructs
`tool_result`; only when its id is found in the dict is the stored call's
status updated (in place, never removed) and `tool_use_stop` constructed. -/
def processBlock (active : List (String × ToolCall)) :
    ContentBlock → List ChatStreamEvent × List (String × ToolCall)
  | .textBlock text =>
      ([⟨"content_delta", [("text", .vStr text)]⟩], active)
  | .thinkingBlock thinking =>
      ([⟨"thinking_delta", [("thinking", .vStr thinking)]⟩], active)
  | .toolUseBlock id name input =>
      let tool_call : ToolCall := ⟨id, name, input, "running"⟩
      ([⟨"tool_use_start",
         [("tool_call_id", .vStr tool_call.id),
          ("tool_name", .vStr tool_call.name),
          ("tool_input", .vDict tool_call.input)]⟩],
       toolDictSet active tool_call.id tool_call)
  | .toolResultBlock tool_use_id content is_error =>
      let resultEvt : ChatStreamEvent :=
        ⟨"tool_result",
         [("tool_use_id", .vStr tool_use_id), ("content", .vStr content),
          ("is_error", .vBool is_error)]⟩
      match active.lookup tool_use_id with
      | some tool_call =>
          let tc : ToolCall :=
            { tool_call with status := if !is_error then "completed" else "failed" }
          ([resultEvt, ⟨"tool_use_stop", [("tool_call", tc.dump)]⟩],
           toolDictSet active tool_use_id tc)
      | none => ([resultEvt], active)

/-- Fold `processBlock` over the blocks of one assistant message. -/
def processBlocks (active : List (String × ToolCall)) :
    List ContentBlock → List ChatStreamEvent × List (String × ToolCall)
  | [] => ([], active)
  | b :: rest =>
      let (evs, active') := processBlock active b
      let (evs', active'') := processBlocks active' rest
      (evs ++ evs', active'')

/-- One upstream message (agent_service.py lines 211-308): the events its
branch constructs, in order, and the updated `active_tool_calls` dict.
A `SystemMessage` always constructs `system_message` with its data dict;
only when its subtype is `"init"` and the data dict has a `session_id` key
are `system_init` and `session_id` also constructed.  The envelope dumps of
`UserMessage` / `StreamEvent` / `ResultMessage` are claim-irrelevant and
encoded as empty dicts. -/
def processMsg (active : List (String × ToolCall)) :
    UpMsg → List ChatStreamEvent × List (String × ToolCall)
  | .systemMessage subtype data =>
      let base : List ChatStreamEvent := [⟨"system_message", data⟩]
      if subtype == "init" then
        match data.get "session_id" with
        | some sid =>
            (base ++ [⟨"system_init", data⟩,
                      ⟨"session_id", [("session_id", sid)]⟩], active)
        | none => (base, active)
      else (base, active)
  | .userMessage => ([⟨"user_message", [("message", .vDict [])]⟩], active)
  | .streamEvent => ([⟨"assistant_partial", [("message", .vDict [])]⟩], active)
  | .assistantMessage content =>
      let envelope : ChatStreamEvent :=
        ⟨"assistant_message",
         [("message", .vDict [("content", .vList (content.map encodeBlock))])]⟩
      let (bevs, active') := processBlocks active content
      (envelope :: (bevs ++ [⟨"content_stop", []⟩]), active')
  | .resultMessage => ([⟨"result", [("message", .vDict [])]⟩], active)

/-- Fold `processMsg` over the upstream messages of one turn. -/
def processMsgs (active : List (String × ToolCall)) :
    List UpMsg → List ChatStreamEvent × List (String × ToolCall)
  | [] => ([], active)
  | m :: rest =>
      let (evs, active') := processMsg active m
      let (evs', active'') := processMsgs active' rest
      (evs ++ evs', active'')

/-- The `thinking_start` event constructed before the `try` block
(agent_service.py lines 180-183). -/
def thinkingStartEvent : ChatStreamEvent :=
  ⟨"thinking_start", [("message", .vStr "Thinking...")]⟩

/-- The terminal `error` event built by the `except` handler
(agent_service.py lines 321-324). -/
def errorEvent (err etype : String) : ChatStreamEvent :=
  ⟨"error", [("error", .vStr err), ("type", .vStr etype)]⟩

/-- The `message_start` event (agent_service.py lines 195-204). -/
def messageStartEvent (agent_id model : String) (memory_config : List String) :
    ChatStreamEvent :=
  ⟨"message_start",
   [("agent_id", .vStr agent_id), ("model", .vStr model),
    ("provider", .vStr "OpenRouter"), ("memory_enabled", .vBool true),
    ("memory_blocks", .vList (memory_config.map .vStr))]⟩

/-- The `ChatStreamEvent` constructor calls made inside the `try` block of
`AgentService.stream_chat`, in order: `thinking_stop`, `message_start`, the
per-message events, then `message_stop` when the adapter stream ends
normally — or, when the adapter raises after `msgs`, the events for `msgs`
followed by the handler's `error` event. -/
def streamChatBody (agent_id model : String) (memory_config : List String) :
    AdapterRun → List ChatStreamEvent
  | .ok msgs =>
      ⟨"thinking_stop", []⟩ :: messageStartEvent agent_id model memory_config ::
      ((processMsgs [] msgs).1 ++
       [⟨"message_stop", [("stop_reason", .vStr "end_turn")]⟩])
  | .fail msgs err etype =>
      ⟨"thinking_stop", []⟩ :: messageStartEvent agent_id model memory_config ::
      ((processMsgs [] msgs).1 ++ [errorEvent err etype])

/-- Dispatch-level event sequence of `AgentService.stream_chat`: every
`ChatStreamEvent(...)` constructor call the generator makes, in order
(`thinking_start` before the `try` block, then the body). -/
def stream_chat_dispatch (agent_id model : String) (memory_config : List String)
    (run : AdapterRun) : List ChatStreamEvent :=
  thinkingStartEvent :: streamChatBody agent_id model memory_config run

/-- Runtime construction semantics: each `ChatStreamEvent(...)` call is
validated by pydantic against the `event_type` Literal
(schemas.py lines 45-59).  The first call whose type is not in the Literal
raises `ValidationError`; since every construction after `thinking_start`
happens inside the `try` block, the handler turns it into a terminal
`error` event and the remaining constructions never run. -/
def validateEvents : List ChatStreamEvent → List ChatStreamEvent
  | [] => []
  | e :: rest =>
      if chatStreamEventTypes.contains e.event_type then e :: validateEvents rest
      else [errorEvent "validation error for ChatStreamEvent" "ValidationError"]

/-- The event sequence `AgentService.stream_chat` actually yields at
runtime: `thinking_start` (whose type is in the Literal, so its
construction outside the `try` block succeeds) followed by the validated
body. -/
def stream_chat (agent_id model : String) (memory_config : List String)
    (run : AdapterRun) : List ChatStreamEvent :=
  thinkingStartEvent :: validateEvents (streamChatBody agent_id model memory_config run)

/-- `options.resume` (agent_service.py lines 176-178): set to the session id
only when that id is truthy, otherwise left unset. -/
def optionsResume (session_id : Option PyVal) : Option PyVal :=
  if pyTruthyOpt session_id then session_id else none

/-- `agent_id = conversation_id or self.agent_name`
(agent_service.py line 169). -/
def agentId (conversation_id : Option String) (agent_name : String) : String :=
  match conversation_id with
  | some s => if s ≠ "" then s else agent_name
  | none => agent_name

/-- `memory_config = memory_labels or [...]` (agent_service.py line 170). -/
def memoryConfig (memory_labels : Option (List String)) : List String :=
  match memory_labels with
  | some l => if l ≠ [] then l else ["human", "persona", "preferences", "knowledge"]
  | none => ["human", "persona", "preferences", "knowledge"]

/-! ## Router (`app/routers/chat.py`) -/

/-- A row of the `conversations` table (database.py lines 38-46): `id` is
the primary key; `messages` is the JSON list of `{role, content}` pairs,
modelled as `(role, content)` pairs; `extra_data` is a nullable JSON dict. -/
structure ConvRow where
  id : String
  title : Option String
  messages : List (String × String)
  extra_data : Option Payload

/-- The conversations table.  `id` is the primary key, so a well-formed
database holds at most one row per id (stated as a hypothesis where row
counts matter). -/
abbrev ConvDB := List ConvRow

/-- `get_conversation` (chat.py lines 19-26): select by id. -/
def get_conversation (db : ConvDB) (cid : String) : Option ConvRow :=
  db.find? (fun c => c.id == cid)

/-- `conversation_id = request.conversation_id or str(uuid.uuid4())`
(chat.py line 57); the fresh uuid is passed in as `freshId`. -/
def routerConversationId (req : ChatRequest) (freshId : String) : String :=
  match req.conversation_id with
  | some s => if s ≠ "" then s else freshId
  | none => freshId

/-- `conv = await get_conversation(...) if request.conversation_id else None`
(chat.py line 59). -/
def routerLookupConv (db : ConvDB) (req : ChatRequest) (freshId : String) :
    Option ConvRow :=
  if truthyOptStr req.conversation_id then
    get_conversation db (routerConversationId req freshId)
  else none

/-- Session-id selection (chat.py lines 62-67).  `reset_session` is the
flag `chat.py` reads from the request (`request.reset_session`); note the
`ChatRequest` model itself declares no such field (see `chatRequestFields`).
`session_id = None if request.reset_session else request.session_id`, and
when that is falsy, the reset flag is false and the looked-up conversation
and its `extra_data` are truthy, `session_id = conv.extra_data.get("session_id")`. -/
def routerSessionId (req : ChatRequest) (reset_session : Bool)
    (conv : Option ConvRow) : Option PyVal :=
  let sid : Option PyVal := if reset_session then none else req.session_id.map .vStr
  if !pyTruthyOpt sid && !reset_session then
    match conv with
    | some c =>
        match c.extra_data with
        | some ed => if !ed.isEmpty then ed.get "session_id" else sid
        | none => sid
    | none => sid
  else sid

/-- `memory_labels` (chat.py line 75). -/
def routerMemoryLabels (req : ChatRequest) : Option (List String) :=
  if req.include_memory then some ["human", "persona", "preferences", "knowledge"]
  else none

/-- The `options.resume` value the session-selection dataflow of chat.py
lines 62-67 composed with agent_service.py lines 176-178 would compute —
counterfactually: line 65 dereferences `request.reset_session`, a field
`ChatRequest` does not declare, so at runtime every request raises
`AttributeError` before this selection runs and the adapter is never
actually asked to resume any token. -/
def stream_chat_resume (db : ConvDB) (req : ChatRequest) (reset_session : Bool)
    (freshId : String) : Option PyVal :=
  optionsResume (routerSessionId req reset_session (routerLookupConv db req freshId))

/-- The per-event loop body of `generate_stream` (chat.py lines 91-105):
threads `(captured_session_id, assistant_content)` through the agent's
event sequence — a `session_id` event overwrites the captured id with
`event.data.get("session_id")`, a `content_delta` event appends
`event.data.get("text", "")`. -/
def streamFold : Option PyVal × String → List ChatStreamEvent → Option PyVal × String
  | st, [] => st
  | (captured, acc), e :: rest =>
      let captured' := if e.event_type == "session_id" then e.data.get "session_id"
                       else captured
      let acc' := if e.event_type == "content_delta" then acc ++ e.data.getStr "text"
                  else acc
      streamFold (captured', acc') rest

/-- `if assistant_content: all_messages.append(...)` (chat.py lines
107-108): the assistant entry appended only when the accumulated text is
nonempty. -/
def assistantSuffix (acc : String) : List (String × String) :=
  if acc ≠ "" then [("assistant", acc)] else []

/-- `extra_data` written at save time (chat.py lines 114-121): a dict with
the captured session id when that id is truthy, otherwise nothing new. -/
def capturedExtra (captured : Option PyVal) : Option Payload :=
  match captured with
  | some v => if pyTruthy v then some [("session_id", v)] else none
  | none => none

/-- The in-place mutation applied to the fetched row (chat.py lines
112-115): replace `messages`, and replace `extra_data` only when a truthy
session id was captured. -/
def updateRow (msgs : List (String × String)) (captured : Option PyVal)
    (cid : String) (c : ConvRow) : ConvRow :=
  if c.id == cid then
    { c with messages := msgs,
             extra_data := match capturedExtra captured with
                           | some ed => some ed
                           | none => c.extra_data }
  else c

/-- The save step of `generate_stream` (chat.py lines 111-125): re-fetch by
id; update the row's messages (and `extra_data` when a truthy session id
was captured) when found, otherwise insert a new row. -/
def saveConversation (db : ConvDB) (cid : String) (msgs : List (String × String))
    (captured : Option PyVal) : ConvDB :=
  match get_conversation db cid with
  | some _ => db.map (updateRow msgs captured cid)
  | none =>
      db ++ [{ id := cid, title := none, messages := msgs,
               extra_data := capturedExtra captured }]

/-- Result of running the `generate_stream` generator to completion:
the SSE payloads emitted in order (each `{"event": kind, "data": payload}`),
the database after the turn, and whether an exception escaped the generator
(the commit has no handler, chat.py line 125). -/
structure GenResult where
  emitted : List (String × Payload)
  db : ConvDB
  raised : Bool

/-- `stream_chat` endpoint plus its `generate_stream` generator
(chat.py lines 52-140) for one turn.  Inputs: the parsed request, the
`reset_session` flag `chat.py` reads from it, the configured model id and
Letta agent name, the fresh uuid, the adapter run, whether the store
commit fails, and the database.  The audit-log file write (line 127) is a
file side effect with no bearing on any claim and is not modelled.  When
the commit raises, the exception propagates: the `done` sentinel is never
yielded and nothing is persisted. -/
def generate_stream (req : ChatRequest) (reset_session : Bool)
    (model agent_name freshId : String) (run : AdapterRun)
    (commitFails : Bool) (db : ConvDB) : GenResult :=
  let cid := routerConversationId req freshId
  let conv0 := routerLookupConv db req freshId
  let existing := (conv0.map (·.messages)).getD []
  let sid := routerSessionId req reset_session conv0
  let all0 := existing ++ [("user", req.message)]
  let evts := stream_chat (agentId (some cid) agent_name) model
      (memoryConfig (routerMemoryLabels req)) run
  let sse0 := ("conversation_id", [("id", PyVal.vStr cid)]) ::
      evts.map (fun e => (e.event_type, e.data))
  let st := streamFold (sid, "") evts
  let allMsgs := all0 ++ assistantSuffix st.2
  if commitFails then ⟨sse0, db, true⟩
  else ⟨sse0 ++ [("done", [])], saveConversation db cid allMsgs st.1, false⟩

/-! ## Memory store (`app/services/memory_service.py`) -/

/-- A row of the `memory_blocks` table (database.py lines 26-34); the
`extra_data` / timestamp columns carry no claim-relevant information. -/
structure MemoryRowDB where
  id : String
  type : String
  key : String
  value : String

/-- The rows matching one `(type, key)` pair — the WHERE clause of
`get_memory_by_key` (memory_service.py lines 61-66). -/
def memFilter (db : List MemoryRowDB) (t k : String) : List MemoryRowDB :=
  db.filter (fun r => r.type == t && r.key == k)

/-- `get_memory_by_key` (memory_service.py lines 56-69):
`scalar_one_or_none` returns the row when unique, `None` when absent, and
raises `MultipleResultsFound` when several rows match. -/
def get_memory_by_key (db : List MemoryRowDB) (t k : String) :
    Except String (Option MemoryRowDB) :=
  match memFilter db t k with
  | [] => .ok none
  | [r] => .ok (some r)
  | _ => .error "MultipleResultsFound"

/-- The caller-supplied `MemoryBlock` (schemas.py lines 64-71) as far as
the upsert claim is concerned. -/
structure MemoryBlockIn where
  id : Option String := none
  type : String
  key : String
  value : String

/-- `create_memory` (memory_service.py lines 29-46):
`memory_id = memory.id or str(uuid.uuid4())`, then insert. -/
def create_memory (db : List MemoryRowDB) (freshId : String) (m : MemoryBlockIn) :
    List MemoryRowDB :=
  let memory_id := match m.id with
    | some s => if s ≠ "" then s else freshId
    | none => freshId
  db ++ [{ id := memory_id, type := m.type, key := m.key, value := m.value }]

/-- `update_memory` (memory_service.py lines 90-110) restricted to the
`value` column: UPDATE ... WHERE id = memory_id. -/
def update_memory (db : List MemoryRowDB) (memory_id : String) (value : String) :
    List MemoryRowDB :=
  db.map (fun r => if r.id == memory_id then { r with value := value } else r)

/-- `upsert_memory` (memory_service.py lines 112-122): look up by
`(type, key)`; update the existing row's id when found, create otherwise. -/
def upsert_memory (db : List MemoryRowDB) (freshId : String) (m : MemoryBlockIn) :
    Except String (List MemoryRowDB) :=
  match get_memory_by_key db m.type m.key with
  | .error e => .error e
  | .ok (some existing) => .ok (update_memory db existing.id m.value)
  | .ok none => .ok (create_memory db freshId m)

/-! ## Workspace path resolution (`app/services/workspace_service.py`) -/

/-- Split a character list on `/` (the components of `s.split("/")`). -/
def splitSlash (cs : List Char) (cur : List Char) : List (List Char) :=
  match cs with
  | [] => [cur.reverse]
  | c :: rest =>
      if c = '/' then cur.reverse :: splitSlash rest []
      else splitSlash rest (c :: cur)

/-- Path components of a POSIX path string (empty components dropped). -/
def pathParts (s : String) : List String :=
  ((splitSlash s.data []).map (fun cs => String.mk cs)).filter (fun p => p ≠ "")

/-- `a.startswith(b)`: character-level prefix test. -/
def strStartsWith (s pre : String) : Bool :=
  pre.data.isPrefixOf s.data

/-- `Path.resolve()` normalization over components: `..` pops the last
component (a no-op at the root), `.` is dropped.  Symlinks are not
modelled. -/
def resolveParts (acc : List String) : List String → List String
  | [] => acc
  | p :: rest =>
      if p = ".." then resolveParts acc.dropLast rest
      else if p = "." then resolveParts acc rest
      else resolveParts (acc ++ [p]) rest

/-- Render components back to an absolute path string. -/
def joinParts (parts : List String) : String :=
  if parts.isEmpty then "/" else parts.foldl (fun acc p => acc ++ "/" ++ p) ""

/-- `(self.workspace_path / path).resolve()` (workspace_service.py line 16):
joining with an absolute `path` discards the root, otherwise the relative
components are appended, then the result is normalized. -/
def resolvedPath (root rel : String) : String :=
  let base := if strStartsWith rel "/" then [] else pathParts root
  joinParts (resolveParts base (pathParts rel))

/-- `WorkspaceService._resolve_path` (workspace_service.py lines 15-19):
resolve, then accept iff `str(resolved).startswith(str(workspace_path))`,
else raise `ValueError`. -/
def resolve_path (root rel : String) : Except String String :=
  let resolved := resolvedPath root rel
  if strStartsWith resolved root then .ok resolved
  else .error ("Path is outside workspace: " ++ rel)

/-- Genuine containment in the workspace root: the resolved path is the
root itself or lies strictly below it (component boundary respected). -/
def insideWorkspace (root resolved : String) : Bool :=
  resolved == root || strStartsWith resolved (root ++ "/")

/-! ## Derived observations used by the tool-lifecycle claims -/

/-- The blocks an upstream message contributes to the per-turn block
sequence (only assistant messages carry blocks). -/
def blocksOfMsg : UpMsg → List ContentBlock
  | .assistantMessage content => content
  | _ => []

/-- All content blocks of a turn, in arrival order. -/
def blocksOf (msgs : List UpMsg) : List ContentBlock :=
  (msgs.map blocksOfMsg).flatten

/-- The tool-call id carried by a `tool_use_stop` event (the `id` field of
its `tool_call` snapshot), `none` for any other event. -/
def toolStopId (e : ChatStreamEvent) : Option String :=
  if e.event_type == "tool_use_stop" then
    match e.data.get "tool_call" with
    | some (.vDict kvs) =>
        match Payload.get kvs "id" with
        | some (.vStr s) => some s
        | _ => none
    | _ => none
  else none

/-- Number of `tool_use_stop` events for id `X` in an event sequence. -/
def stopCount (X : String) (evts : List ChatStreamEvent) : Nat :=
  evts.countP (fun e => toolStopId e == some X)

/-- Whether a `ToolUseBlock` with id `X` occurs in the block sequence. -/
def startedIn (X : String) : List ContentBlock → Bool
  | [] => false
  | .toolUseBlock id _ _ :: rest => id == X || startedIn X rest
  | _ :: rest => startedIn X rest

/-- The number of tool results for id `X` observed at a point where `X` is
already registered: a `ToolUseBlock` for `X` registers it, and each
`ToolResultBlock` for `X` counts once it is registered (`started` records
whether `X` was registered before this block sequence). -/
def matchedResults (started : Bool) (X : String) : List ContentBlock → Nat
  | [] => 0
  | .toolUseBlock id _ _ :: rest => matchedResults (started || id == X) X rest
  | .toolResultBlock id _ _ :: rest =>
      (if started && id == X then 1 else 0) + matchedResults started X rest
  | _ :: rest => matchedResults started X rest

/-- The `active_tool_calls` dict always maps an id to a call carrying that
id: established by registration and preserved by status updates. -/
def wfToolDict (d : List (String × ToolCall)) : Prop :=
  ∀ p ∈ d, p.2.id = p.1

/-! ## Claim theorems -/

/-- C1: the spec gives every turn request a `reset_session` flag that
forces a fresh upstream session, and `chat.py` (lines 62-67) indeed selects
`None` as the session id whenever the flag it reads is true — but the
`ChatRequest` model (schemas.py lines 21-27) declares no `reset_session`
field, so `request.reset_session` raises `AttributeError` on every request
before any session selection can run. -/
theorem c1_reset_session_field_missing :
    "reset_session" ∈ streamChatRequestAttrsRead ∧
      "reset_session" ∉ chatRequestFields ∧
      ∀ (req : ChatRequest) (conv : Option ConvRow),
        routerSessionId req true conv = none := by
  refine ⟨by decide, by decide, fun req conv => ?_⟩
  simp [routerSessionId, pyTruthyOpt]

/-- C3: the claim requires every system/system-init upstream message to
produce a `system_init` event (plus `session_id` when a token is carried),
all event kinds lying in the closed enumeration.  In the source the
`system_message` and `system_init` kinds are missing from the
`ChatStreamEvent` Literal, so at runtime the very first `system_message`
construction raises `ValidationError` and the turn aborts with an `error`
event: no `system_init` or `session_id` event is ever yielded.  Moreover
even the dispatch branch emits `system_init` only when the init data
carries a `session_id` key. -/
theorem c3_system_init_rejected_by_schema :
    ("system_message" ∉ chatStreamEventTypes ∧
       "system_init" ∉ chatStreamEventTypes) ∧
    (stream_chat_dispatch "agent" "deepseek" ["human"]
        (.ok [.systemMessage "init" [("session_id", .vStr "sess-1")]])).map
        (·.event_type) =
      ["thinking_start", "thinking_stop", "message_start", "system_message",
       "system_init", "session_id", "message_stop"] ∧
    (stream_chat "agent" "deepseek" ["human"]
        (.ok [.systemMessage "init" [("session_id", .vStr "sess-1")]])).map
        (·.event_type) =
      ["thinking_start", "thinking_stop", "message_start", "error"] ∧
    (stream_chat_dispatch "agent" "deepseek" ["human"]
        (.ok [.systemMessage "init" []])).map (·.event_type) =
      ["thinking_start", "thinking_stop", "message_start", "system_message",
       "message_stop"] :=
  ⟨⟨by decide, by decide⟩, rfl, rfl, rfl⟩

/-- C7: for a tool-result whose id was never opened, the normalizer's
dispatch branch (agent_service.py lines 281-297) does construct a
`tool_result` event, no `tool_use_stop`, and raises nothing — but at
runtime the enclosing `assistant_message` envelope event is constructed
first, its kind is missing from the `ChatStreamEvent` Literal, and the
resulting `ValidationError` aborts the turn with an `error` event before
the `tool_result` is ever yielded. -/
theorem c7_unmatched_tool_result_dropped_by_schema :
    (stream_chat_dispatch "agent" "deepseek" ["human"]
        (.ok [.assistantMessage [.toolResultBlock "orphan" "res" false]])).map
        (·.event_type) =
      ["thinking_start", "thinking_stop", "message_start",
       "assistant_message", "tool_result", "content_stop", "message_stop"] ∧
    "assistant_message" ∉ chatStreamEventTypes ∧
    (stream_chat "agent" "deepseek" ["human"]
        (.ok [.assistantMessage [.toolResultBlock "orphan" "res" false]])).map
        (·.event_type) =
      ["thinking_start", "thinking_stop", "message_start", "error"] :=
  ⟨rfl, by decide, rfl⟩

/-- C10: `_resolve_path` accepts any resolved path that merely has the
workspace root as a string prefix.  A relative path escaping to a sibling
directory whose name extends the root's final component passes the check
while lying outside the workspace root. -/
theorem c10_resolve_path_prefix_bypass :
    resolve_path "/srv/companion/workspace" "../workspace-backup/secrets.txt" =
      .ok "/srv/companion/workspace-backup/secrets.txt" ∧
    insideWorkspace "/srv/companion/workspace"
      "/srv/companion/workspace-backup/secrets.txt" = false :=
  ⟨by rfl, by rfl⟩

/-- The updated row keeps its id. -/
theorem updateRow_id (msgs : List (String × String)) (captured : Option PyVal)
    (cid : String) (c : ConvRow) : (updateRow msgs captured cid c).id = c.id := by
  unfold updateRow
  split
  · rfl
  · rfl

/-- After the save step there is a row for the conversation id and its
messages are exactly the saved list. -/
theorem get_conversation_save (db : ConvDB) (cid : String)
    (msgs : List (String × String)) (captured : Option PyVal) :
    ∃ row, get_conversation (saveConversation db cid msgs captured) cid = some row ∧
      row.messages = msgs := by
  unfold saveConversation
  cases h : get_conversation db cid with
  | none =>
      refine ⟨⟨cid, none, msgs, capturedExtra captured⟩, ?_, rfl⟩
      unfold get_conversation at h ⊢
      rw [List.find?_append, h]
      simp [List.find?]
  | some c =>
      unfold get_conversation at h
      have hid : (c.id == cid) = true := by
        have h2 := List.find?_some h
        simpa using h2
      refine ⟨updateRow msgs captured cid c, ?_, ?_⟩
      · unfold get_conversation
        rw [List.find?_map]
        have hp : ((fun r : ConvRow => r.id == cid) ∘ updateRow msgs captured cid) =
            (fun r : ConvRow => r.id == cid) := by
          funext r
          simp [Function.comp, updateRow_id]
        rw [hp, h]
        rfl
      · unfold updateRow
        rw [if_pos hid]

/-- Constructing an event whose kind is in the Literal succeeds and
validation proceeds with the rest. -/
theorem validateEvents_cons_valid (e : ChatStreamEvent) (rest : List ChatStreamEvent)
    (h : chatStreamEventTypes.contains e.event_type = true) :
    validateEvents (e :: rest) = e :: validateEvents rest := by
  simp only [validateEvents]
  rw [if_pos h]

/-- Validating a constructor sequence that ends in the handler's error
event yields a sequence that still ends in an error-typed event: either
every earlier construction was valid and the original error event stays
last, or the first invalid construction is replaced by the handler's
`ValidationError` error event and nothing follows it. -/
theorem validateEvents_error_last (evts : List ChatStreamEvent) (err etype : String) :
    ∃ pre e, validateEvents (evts ++ [errorEvent err etype]) = pre ++ [e] ∧
      e.event_type = "error" := by
  induction evts with
  | nil =>
      refine ⟨[], errorEvent err etype, ?_, rfl⟩
      simp [validateEvents, errorEvent, chatStreamEventTypes]
  | cons hd tl ih =>
      by_cases hvalid : chatStreamEventTypes.contains hd.event_type = true
      · obtain ⟨pre, e, heq, htype⟩ := ih
        refine ⟨hd :: pre, e, ?_, htype⟩
        rw [List.cons_append, validateEvents_cons_valid hd _ hvalid, heq]
        rfl
      · refine ⟨[], errorEvent "validation error for ChatStreamEvent" "ValidationError",
          ?_, rfl⟩
        simp only [List.cons_append, validateEvents]
        rw [if_neg hvalid]
        rfl

/-- C2 (counterexample): the adapter raises before yielding anything; the
delivered sequence contains the terminal `error` event but still ends with
the router's unconditional `done` sentinel (chat.py line 140), so the
claim that the sequence ends with `error` and not `done` is false. -/
theorem c2_counterexample_done_after_error :
    (generate_stream { message := "hello" } false "deepseek" "agent" "c-2"
        (.fail [] "boom" "RuntimeError") false []).emitted.map Prod.fst =
      ["conversation_id", "thinking_start", "thinking_stop", "message_start",
       "error", "done"] ∧
    ((generate_stream { message := "hello" } false "deepseek" "agent" "c-2"
        (.fail [] "boom" "RuntimeError") false []).emitted.map Prod.fst).getLast? =
      some "done" :=
  ⟨by rfl, by rfl⟩

/-- C2 (amended): for every turn whose adapter raises mid-stream, the
delivered event sequence ends with the terminal `error` event immediately
followed by the router's `done` sentinel, and the persisted conversation
row ends with the user's prompt followed by the assistant content
accumulated from the delivered `content_delta` events (no assistant entry
when that content is empty). -/
theorem c2_error_turn_persists_and_done_still_sent
    (req : ChatRequest) (reset_session : Bool) (model agent_name freshId : String)
    (msgs : List UpMsg) (err etype : String) (db : ConvDB) :
    ∃ pre row,
      (generate_stream req reset_session model agent_name freshId
          (.fail msgs err etype) false db).emitted.map Prod.fst =
        pre ++ ["error", "done"] ∧
      get_conversation
        (generate_stream req reset_session model agent_name freshId
          (.fail msgs err etype) false db).db
        (routerConversationId req freshId) = some row ∧
      row.messages =
        ((routerLookupConv db req freshId).map (·.messages)).getD [] ++
          [("user", req.message)] ++
        assistantSuffix
          (streamFold
            (routerSessionId req reset_session (routerLookupConv db req freshId), "")
            (stream_chat (agentId (some (routerConversationId req freshId)) agent_name)
              model (memoryConfig (routerMemoryLabels req))
              (.fail msgs err etype))).2 := by
  obtain ⟨pre, e, heq, htype⟩ :=
    validateEvents_error_last (processMsgs [] msgs).1 err etype
  have hv : validateEvents (streamChatBody
        (agentId (some (routerConversationId req freshId)) agent_name) model
        (memoryConfig (routerMemoryLabels req)) (.fail msgs err etype)) =
      ⟨"thinking_stop", []⟩ ::
        messageStartEvent (agentId (some (routerConversationId req freshId)) agent_name)
          model (memoryConfig (routerMemoryLabels req)) ::
        (pre ++ [e]) := by
    rw [streamChatBody]
    rw [validateEvents_cons_valid ⟨"thinking_stop", []⟩ _ rfl]
    rw [validateEvents_cons_valid
        (messageStartEvent (agentId (some (routerConversationId req freshId)) agent_name)
          model (memoryConfig (routerMemoryLabels req))) _ rfl]
    rw [heq]
  obtain ⟨row, hrow, hmsgs⟩ :=
    get_conversation_save db (routerConversationId req freshId)
      (((routerLookupConv db req freshId).map (·.messages)).getD [] ++
          [("user", req.message)] ++
        assistantSuffix
          (streamFold
            (routerSessionId req reset_session (routerLookupConv db req freshId), "")
            (stream_chat (agentId (some (routerConversationId req freshId)) agent_name)
              model (memoryConfig (routerMemoryLabels req))
              (.fail msgs err etype))).2)
      (streamFold
        (routerSessionId req reset_session (routerLookupConv db req freshId), "")
        (stream_chat (agentId (some (routerConversationId req freshId)) agent_name)
          model (memoryConfig (routerMemoryLabels req))
          (.fail msgs err etype))).1
  refine ⟨"conversation_id" :: "thinking_start" :: "thinking_stop" ::
      "message_start" :: pre.map (·.event_type), row, ?_, ?_, hmsgs⟩
  · simp only [generate_stream, stream_chat, hv, if_neg, Bool.false_eq_true,
      not_false_eq_true, if_false, List.map_cons, List.map_append, List.append_assoc]
    simp [htype, thinkingStartEvent, messageStartEvent]
  · simpa only [generate_stream, stream_chat, hv, Bool.false_eq_true,
      not_false_eq_true, if_false, List.append_assoc] using hrow

/-- C5 (counterexample): on a commit failure the exception escapes the
generator (there is no handler around the write, chat.py line 125): the
turn's row is not written, no retry happens, and the client's stream is
cut short of the `done` sentinel — the event stream is visibly affected. -/
theorem c5_counterexample_commit_failure_truncates_stream :
    (generate_stream { message := "hello" } false "deepseek" "agent" "c-5"
        (.ok []) true []).raised = true ∧
    (generate_stream { message := "hello" } false "deepseek" "agent" "c-5"
        (.ok []) true []).db = [] ∧
    (generate_stream { message := "hello" } false "deepseek" "agent" "c-5"
        (.ok []) true []).emitted.map Prod.fst =
      ["conversation_id", "thinking_start", "thinking_stop", "message_start",
       "message_stop"] ∧
    (generate_stream { message := "hello" } false "deepseek" "agent" "c-5"
        (.ok []) false []).emitted.map Prod.fst =
      ["conversation_id", "thinking_start", "thinking_stop", "message_start",
       "message_stop", "done"] :=
  ⟨rfl, rfl, by rfl, by rfl⟩

/-- C5 (amended): for every turn whose Conversation Store write fails, the
exception propagates out of the stream generator — the write is never
retried and no warning path exists — so nothing is persisted and the
client's stream is exactly the successful stream minus its final `done`
sentinel. -/
theorem c5_commit_failure_never_retried
    (req : ChatRequest) (reset_session : Bool) (model agent_name freshId : String)
    (run : AdapterRun) (db : ConvDB) :
    (generate_stream req reset_session model agent_name freshId run true db).raised
        = true ∧
    (generate_stream req reset_session model agent_name freshId run true db).db = db ∧
    (generate_stream req reset_session model agent_name freshId run false db).emitted =
      (generate_stream req reset_session model agent_name freshId run true db).emitted
        ++ [("done", [])] :=
  ⟨rfl, rfl, rfl⟩

/-- The save step leaves exactly one row for the conversation id, provided
the table respected the primary-key uniqueness beforehand. -/
theorem saveConversation_count (db : ConvDB) (cid : String)
    (msgs : List (String × String)) (captured : Option PyVal)
    (h : (db.filter (fun c => c.id == cid)).length ≤ 1) :
    ((saveConversation db cid msgs captured).filter
      (fun c => c.id == cid)).length = 1 := by
  unfold saveConversation
  cases h2 : get_conversation db cid with
  | none =>
      unfold get_conversation at h2
      have hnil : db.filter (fun c => c.id == cid) = [] := by
        rw [List.filter_eq_nil_iff]
        intro a ha
        have h3 := List.find?_eq_none.mp h2 a ha
        simpa using h3
      rw [List.filter_append, hnil]
      simp
  | some c =>
      unfold get_conversation at h2
      have hcomp : ((fun r : ConvRow => r.id == cid) ∘ updateRow msgs captured cid) =
          (fun r : ConvRow => r.id == cid) := by
        funext r
        simp [Function.comp, updateRow_id]
      rw [List.filter_map, hcomp, List.length_map]
      have hmem : c ∈ db := List.mem_of_find?_eq_some h2
      have hc : (c.id == cid) = true := by
        have h3 := List.find?_some h2
        simpa using h3
      have hge : 0 < (db.filter (fun c => c.id == cid)).length :=
        List.length_pos_of_mem (List.mem_filter.mpr ⟨hmem, hc⟩)
      omega

/-- C4 (counterexample): on immediate adapter failure nothing was
accumulated, `if assistant_content:` is false (chat.py line 107), and the
persisted messages end with the user prompt alone — there is no (empty)
assistant entry, contradicting the claimed final user-then-assistant
pair. -/
theorem c4_counterexample_no_empty_assistant_entry :
    (generate_stream { message := "hello" } false "deepseek" "agent" "c-4"
        (.fail [] "boom" "RuntimeError") false []).db.map
        (fun c => (c.id, c.messages)) = [("c-4", [("user", "hello")])] ∧
    (generate_stream { message := "hello" } false "deepseek" "agent" "c-4"
        (.fail [] "boom" "RuntimeError") false []).db.map
        (fun c => c.messages.getLast?.map Prod.fst) = [some "user"] :=
  ⟨by rfl, by rfl⟩

/-- C4 (amended): for every completed turn whose store commit succeeds,
exactly one Conversation row exists for the turn's conversation id (given
primary-key uniqueness beforehand), and its messages are the prior
messages, then the user's prompt, then the assistant's accumulated text as
a final assistant entry only when that text is nonempty — on immediate
failure the list ends with the user's prompt and carries no assistant
entry. -/
theorem c4_exactly_one_row_prompt_then_optional_assistant
    (req : ChatRequest) (reset_session : Bool) (model agent_name freshId : String)
    (run : AdapterRun) (db : ConvDB)
    (h : (db.filter (fun c => c.id == routerConversationId req freshId)).length ≤ 1) :
    ((generate_stream req reset_session model agent_name freshId run false db).db.filter
        (fun c => c.id == routerConversationId req freshId)).length = 1 ∧
    ∃ row,
      get_conversation
        (generate_stream req reset_session model agent_name freshId run false db).db
        (routerConversationId req freshId) = some row ∧
      row.messages =
        ((routerLookupConv db req freshId).map (·.messages)).getD [] ++
          [("user", req.message)] ++
        assistantSuffix
          (streamFold
            (routerSessionId req reset_session (routerLookupConv db req freshId), "")
            (stream_chat (agentId (some (routerConversationId req freshId)) agent_name)
              model (memoryConfig (routerMemoryLabels req)) run)).2 := by
  constructor
  · have hcount := saveConversation_count db (routerConversationId req freshId)
      (((routerLookupConv db req freshId).map (·.messages)).getD [] ++
          [("user", req.message)] ++
        assistantSuffix
          (streamFold
            (routerSessionId req reset_session (routerLookupConv db req freshId), "")
            (stream_chat (agentId (some (routerConversationId req freshId)) agent_name)
              model (memoryConfig (routerMemoryLabels req)) run)).2)
      (streamFold
        (routerSessionId req reset_session (routerLookupConv db req freshId), "")
        (stream_chat (agentId (some (routerConversationId req freshId)) agent_name)
          model (memoryConfig (routerMemoryLabels req)) run)).1 h
    simpa only [generate_stream, Bool.false_eq_true, not_false_eq_true, if_false,
      List.append_assoc] using hcount
  · obtain ⟨row, hrow, hmsgs⟩ :=
      get_conversation_save db (routerConversationId req freshId)
        (((routerLookupConv db req freshId).map (·.messages)).getD [] ++
            [("user", req.message)] ++
          assistantSuffix
            (streamFold
              (routerSessionId req reset_session (routerLookupConv db req freshId), "")
              (stream_chat (agentId (some (routerConversationId req freshId)) agent_name)
                model (memoryConfig (routerMemoryLabels req)) run)).2)
        (streamFold
          (routerSessionId req reset_session (routerLookupConv db req freshId), "")
          (stream_chat (agentId (some (routerConversationId req freshId)) agent_name)
            model (memoryConfig (routerMemoryLabels req)) run)).1
    refine ⟨row, ?_, hmsgs⟩
    simpa only [generate_stream, Bool.false_eq_true, not_false_eq_true, if_false,
      List.append_assoc] using hrow

/-- Witness for the amended C4 at a concrete turn: empty database,
successful empty run. -/
theorem c4_exactly_one_row_witness :
    (([] : ConvDB).filter
        (fun c => c.id == routerConversationId { message := "hi" } "c-4w")).length ≤ 1 ∧
    ((generate_stream { message := "hi" } false "deepseek" "agent" "c-4w"
        (.ok []) false []).db.filter
        (fun c => c.id == routerConversationId { message := "hi" } "c-4w")).length = 1 :=
  ⟨by decide,
   (c4_exactly_one_row_prompt_then_optional_assistant { message := "hi" } false
      "deepseek" "agent" "c-4w" (.ok []) [] (by decide)).1⟩

/-- C8: the resumption round-trip is unexecutable as coded.  The claim's
own cited slice (chat.py lines 62-67) begins by reading `reset_session`,
which `ChatRequest` does not declare, so every request raises
`AttributeError` before the selection runs; and even past that, a turn
whose upstream init message carries a token never delivers a `session_id`
event (the `system_message` construction is rejected by the event-kind
Literal and aborts the turn), so no token is ever captured or stored —
the persisted row carries no `extra_data`.  The selection dataflow itself
is exact pass-through, evaluated here on both branches the claim names:
a token supplied in the request, and a token found stored for the
conversation. -/
theorem c8_resume_round_trip_unrealizable :
    ("reset_session" ∈ streamChatRequestAttrsRead ∧
       "reset_session" ∉ chatRequestFields) ∧
    (generate_stream { message := "hi" } false "deepseek" "agent" "c-8"
        (.ok [.systemMessage "init" [("session_id", .vStr "tok-1")]])
        false []).emitted.map Prod.fst =
      ["conversation_id", "thinking_start", "thinking_stop", "message_start",
       "error", "done"] ∧
    (generate_stream { message := "hi" } false "deepseek" "agent" "c-8"
        (.ok [.systemMessage "init" [("session_id", .vStr "tok-1")]])
        false []).db.map (fun c => (c.id, c.extra_data.isSome)) =
      [("c-8", false)] ∧
    stream_chat_resume [] { message := "hi", session_id := some "tok-1" }
        false "f-8" = some (.vStr "tok-1") ∧
    stream_chat_resume
        [{ id := "c-8", title := none, messages := [],
           extra_data := some [("session_id", .vStr "tok-1")] }]
        { message := "hi", conversation_id := some "c-8" } false "f-8" =
      some (.vStr "tok-1") :=
  ⟨⟨by decide, by decide⟩, by rfl, by rfl, by rfl, by rfl⟩

/-- The id-keyed value update touches neither `type` nor `key`, so the
`(type, key)` filter commutes with it. -/
theorem memFilter_update (l : List MemoryRowDB) (mid v t k : String) :
    memFilter (update_memory l mid v) t k =
      (memFilter l t k).map
        (fun r => if r.id == mid then { r with value := v } else r) := by
  unfold update_memory memFilter
  rw [List.filter_map]
  have hp : ((fun r : MemoryRowDB => r.type == t && r.key == k) ∘
      (fun r : MemoryRowDB => if r.id == mid then { r with value := v } else r)) =
      (fun r : MemoryRowDB => r.type == t && r.key == k) := by
    funext r
    by_cases hr : (r.id == mid) = true
    · simp [Function.comp, hr]
    · simp [Function.comp, hr]
  rw [hp]

/-- C9: upserting the same `(type, key)` twice with different values leaves
exactly one row for that pair, carrying the second value — provided the
pair was unique (or absent) beforehand, which is the upsert invariant
(`scalar_one_or_none` would raise otherwise). -/
theorem c9_upsert_twice_single_row (db : List MemoryRowDB)
    (t k v1 v2 f1 f2 : String) (hv : v1 ≠ v2)
    (h : (memFilter db t k).length ≤ 1) :
    ∃ db1 db2,
      upsert_memory db f1 { id := none, type := t, key := k, value := v1 } =
        .ok db1 ∧
      upsert_memory db1 f2 { id := none, type := t, key := k, value := v2 } =
        .ok db2 ∧
      (memFilter db2 t k).map (·.value) = [v2] := by
  cases hfil : memFilter db t k with
  | nil =>
      have hget : get_memory_by_key db t k = .ok none := by
        unfold get_memory_by_key
        rw [hfil]
      refine ⟨db ++ [⟨f1, t, k, v1⟩], update_memory (db ++ [⟨f1, t, k, v1⟩]) f1 v2,
        ?_, ?_, ?_⟩
      · unfold upsert_memory
        rw [hget]
        rfl
      · have hfil1 : memFilter (db ++ [⟨f1, t, k, v1⟩]) t k = [⟨f1, t, k, v1⟩] := by
          unfold memFilter at hfil ⊢
          rw [List.filter_append, hfil]
          simp
        have hget1 : get_memory_by_key (db ++ [⟨f1, t, k, v1⟩]) t k =
            .ok (some ⟨f1, t, k, v1⟩) := by
          unfold get_memory_by_key
          rw [hfil1]
        unfold upsert_memory
        rw [hget1]
      · have hfil1 : memFilter (db ++ [⟨f1, t, k, v1⟩]) t k = [⟨f1, t, k, v1⟩] := by
          unfold memFilter at hfil ⊢
          rw [List.filter_append, hfil]
          simp
        rw [memFilter_update, hfil1]
        simp
  | cons r rest =>
      have hrest : rest = [] := by
        cases rest with
        | nil => rfl
        | cons r2 rest2 =>
            rw [hfil] at h
            simp at h
      subst hrest
      have hget : get_memory_by_key db t k = .ok (some r) := by
        unfold get_memory_by_key
        rw [hfil]
      refine ⟨update_memory db r.id v1, update_memory (update_memory db r.id v1)
        ({ r with value := v1 } : MemoryRowDB).id v2, ?_, ?_, ?_⟩
      · unfold upsert_memory
        rw [hget]
      · have hfil1 : memFilter (update_memory db r.id v1) t k =
            [{ r with value := v1 }] := by
          rw [memFilter_update, hfil]
          simp
        have hget1 : get_memory_by_key (update_memory db r.id v1) t k =
            .ok (some { r with value := v1 }) := by
          unfold get_memory_by_key
          rw [hfil1]
        unfold upsert_memory
        rw [hget1]
      · have hfil1 : memFilter (update_memory db r.id v1) t k =
            [{ r with value := v1 }] := by
          rw [memFilter_update, hfil]
          simp
        rw [memFilter_update, hfil1]
        simp

/-- Witness for C9 at a concrete empty table. -/
theorem c9_upsert_twice_single_row_witness :
    ("v1" ≠ "v2") ∧ (memFilter [] "persona" "style").length ≤ 1 ∧
    ∃ db1 db2,
      upsert_memory [] "id-1"
          { id := none, type := "persona", key := "style", value := "v1" } =
        .ok db1 ∧
      upsert_memory db1 "id-2"
          { id := none, type := "persona", key := "style", value := "v2" } =
        .ok db2 ∧
      (memFilter db2 "persona" "style").map (·.value) = ["v2"] :=
  ⟨by decide, by decide,
   c9_upsert_twice_single_row [] "persona" "style" "v1" "v2" "id-1" "id-2"
     (by decide) (by decide)⟩

/-- A successful `List.lookup` exhibits its binding as a member. -/
theorem lookup_mem_pair (k : String) (w : ToolCall) :
    ∀ d : List (String × ToolCall), d.lookup k = some w → (k, w) ∈ d := by
  intro d
  induction d with
  | nil => intro h; simp [List.lookup] at h
  | cons hd tl ih =>
      obtain ⟨a, b⟩ := hd
      intro h
      rw [List.lookup_cons] at h
      cases hk : (k == a) with
      | true =>
          rw [hk] at h
          have hka : k = a := eq_of_beq hk
          have hbw : b = w := by
            simpa using h
          subst hka
          subst hbw
          exact List.mem_cons_self _ _
      | false =>
          rw [hk] at h
          exact List.mem_cons_of_mem _ (ih h)

/-- Lookup after a Python dict assignment `d[k] = v`. -/
theorem toolDictSet_lookup (k : String) (v : ToolCall) (X : String) :
    ∀ d : List (String × ToolCall),
      (toolDictSet d k v).lookup X = if X = k then some v else d.lookup X := by
  intro d
  induction d with
  | nil =>
      by_cases hX : X = k
      · subst hX
        simp [toolDictSet, List.lookup_cons, beq_self_eq_true]
      · have h2 : (X == k) = false := beq_eq_false_iff_ne.mpr hX
        simp [toolDictSet, List.lookup_cons, h2, hX, List.lookup]
  | cons hd tl ih =>
      obtain ⟨a, b⟩ := hd
      cases hb : (a == k) with
      | true =>
          have hak : a = k := eq_of_beq hb
          subst hak
          by_cases hX : X = a
          · subst hX
            simp [toolDictSet, hb, List.lookup_cons, beq_self_eq_true]
          · have h2 : (X == a) = false := beq_eq_false_iff_ne.mpr hX
            simp [toolDictSet, hb, List.lookup_cons, h2, hX]
      | false =>
          have hak : a ≠ k := by
            intro hh
            subst hh
            simp [beq_self_eq_true] at hb
          by_cases hX : X = a
          · subst hX
            have hXk : X ≠ k := hak
            simp [toolDictSet, hb, List.lookup_cons, beq_self_eq_true, hXk]
          · have h2 : (X == a) = false := beq_eq_false_iff_ne.mpr hX
            simp [toolDictSet, hb, List.lookup_cons, h2, ih]

/-- Every binding of the updated dict is the new binding or an original. -/
theorem toolDictSet_mem (k : String) (v : ToolCall) (p : String × ToolCall) :
    ∀ d : List (String × ToolCall),
      p ∈ toolDictSet d k v → p = (k, v) ∨ p ∈ d := by
  intro d
  induction d with
  | nil =>
      intro hp
      simp [toolDictSet] at hp
      exact Or.inl hp
  | cons hd tl ih =>
      obtain ⟨a, b⟩ := hd
      intro hp
      cases hb : (a == k) with
      | true =>
          rw [toolDictSet, if_pos hb] at hp
          rcases List.mem_cons.mp hp with h1 | h1
          · exact Or.inl h1
          · exact Or.inr (List.mem_cons_of_mem _ h1)
      | false =>
          rw [toolDictSet, if_neg (by simp [hb])] at hp
          rcases List.mem_cons.mp hp with h1 | h1
          · exact Or.inr (h1 ▸ List.mem_cons_self _ _)
          · rcases ih h1 with h2 | h2
            · exact Or.inl h2
            · exact Or.inr (List.mem_cons_of_mem _ h2)

/-- Dict assignment of a call carrying its key preserves well-formedness. -/
theorem wfToolDict_set (d : List (String × ToolCall)) (k : String) (v : ToolCall)
    (hwf : wfToolDict d) (hv : v.id = k) : wfToolDict (toolDictSet d k v) := by
  intro p hp
  rcases toolDictSet_mem k v p d hp with h1 | h1
  · subst h1
    exact hv
  · exact hwf p h1

/-- `tool_use_stop` snapshots expose the stored call's id. -/
theorem toolStopId_stop (tc : ToolCall) :
    toolStopId ⟨"tool_use_stop", [("tool_call", tc.dump)]⟩ = some tc.id := rfl

/-- Unfolding `stopCount` over a cons cell. -/
theorem stopCount_cons (X : String) (e : ChatStreamEvent) (l : List ChatStreamEvent) :
    stopCount X (e :: l) =
      stopCount X l + (if (toolStopId e == some X) = true then 1 else 0) := by
  simp [stopCount, List.countP_cons]

/-- The per-block accounting of tool lifecycle events: starting from any
well-formed open dict, the number of `tool_use_stop` events for `X`
produced by a block sequence equals the number of tool results for `X`
observed while `X` is registered, `X` is open afterwards iff it was open
before or a `ToolUseBlock` registered it (entries are never removed), and
the dict stays well-formed. -/
theorem processBlocks_stops (X : String) (bs : List ContentBlock) :
    ∀ d, wfToolDict d →
      stopCount X (processBlocks d bs).1 =
        matchedResults ((d.lookup X).isSome) X bs ∧
      ((processBlocks d bs).2.lookup X).isSome =
        ((d.lookup X).isSome || startedIn X bs) ∧
      wfToolDict (processBlocks d bs).2 := by
  induction bs with
  | nil =>
      intro d hwf
      refine ⟨?_, ?_, hwf⟩
      · simp [processBlocks, stopCount, matchedResults]
      · simp [processBlocks, startedIn]
  | cons b rest ih =>
      intro d hwf
      cases b with
      | textBlock text =>
          obtain ⟨ih1, ih2, ih3⟩ := ih d hwf
          refine ⟨?_, ?_, ?_⟩
          · simp only [processBlocks, processBlock, stopCount, List.singleton_append,
              List.countP_cons, matchedResults]
            rw [show (toolStopId ⟨"content_delta", [("text", .vStr text)]⟩ ==
                some X) = false from rfl]
            simpa [stopCount] using ih1
          · simpa [processBlocks, processBlock, startedIn] using ih2
          · simpa [processBlocks, processBlock] using ih3
      | thinkingBlock thinking =>
          obtain ⟨ih1, ih2, ih3⟩ := ih d hwf
          refine ⟨?_, ?_, ?_⟩
          · simp only [processBlocks, processBlock, stopCount, List.singleton_append,
              List.countP_cons, matchedResults]
            rw [show (toolStopId ⟨"thinking_delta", [("thinking", .vStr thinking)]⟩ ==
                some X) = false from rfl]
            simpa [stopCount] using ih1
          · simpa [processBlocks, processBlock, startedIn] using ih2
          · simpa [processBlocks, processBlock] using ih3
      | toolUseBlock id name input =>
          have hwf2 : wfToolDict (toolDictSet d id ⟨id, name, input, "running"⟩) :=
            wfToolDict_set d id ⟨id, name, input, "running"⟩ hwf rfl
          obtain ⟨ih1, ih2, ih3⟩ :=
            ih (toolDictSet d id ⟨id, name, input, "running"⟩) hwf2
          have hmem : ((toolDictSet d id
              ⟨id, name, input, "running"⟩).lookup X).isSome =
              ((d.lookup X).isSome || (id == X)) := by
            rw [toolDictSet_lookup]
            by_cases hX : X = id
            · subst hX
              simp [beq_self_eq_true]
            · have h2 : (id == X) = false := beq_eq_false_iff_ne.mpr (Ne.symm hX)
              simp [hX, h2]
          refine ⟨?_, ?_, ?_⟩
          · simp only [processBlocks, processBlock, stopCount, List.singleton_append,
              List.countP_cons, matchedResults]
            rw [show (toolStopId ⟨"tool_use_start",
                [("tool_call_id", .vStr id), ("tool_name", .vStr name),
                 ("tool_input", .vDict input)]⟩ == some X) = false from rfl]
            have ih1s : List.countP (fun e => toolStopId e == some X)
                (processBlocks (toolDictSet d id ⟨id, name, input, "running"⟩)
                  rest).1 = matchedResults ((d.lookup X).isSome || (id == X)) X rest := by
              simpa [stopCount, hmem] using ih1
            simpa using ih1s
          · simp only [processBlocks, processBlock, startedIn]
            rw [ih2, hmem]
            simp [startedIn, Bool.or_assoc]
          · simpa [processBlocks, processBlock] using ih3
      | toolResultBlock tuid content is_error =>
          cases hl : d.lookup tuid with
          | none =>
              obtain ⟨ih1, ih2, ih3⟩ := ih d hwf
              have hz : ((d.lookup X).isSome && (tuid == X)) = false := by
                by_cases hX : X = tuid
                · subst hX
                  simp [hl]
                · have h2 : (tuid == X) = false := beq_eq_false_iff_ne.mpr (Ne.symm hX)
                  simp [h2]
              refine ⟨?_, ?_, ?_⟩
              · simp only [processBlocks, processBlock, hl, stopCount,
                  List.singleton_append, List.countP_cons, matchedResults]
                rw [show (toolStopId ⟨"tool_result",
                    [("tool_use_id", .vStr tuid), ("content", .vStr content),
                     ("is_error", .vBool is_error)]⟩ == some X) = false from rfl,
                  hz]
                simpa [stopCount] using ih1
              · simp only [processBlocks, processBlock, hl, startedIn]
                simpa [startedIn] using ih2
              · simpa [processBlocks, processBlock, hl] using ih3
          | some tool_call =>
              have htc : tool_call.id = tuid :=
                hwf (tuid, tool_call) (lookup_mem_pair tuid tool_call d hl)
              have hwf2 : wfToolDict (toolDictSet d tuid
                  { tool_call with
                    status := if !is_error then "completed" else "failed" }) :=
                wfToolDict_set d tuid _ hwf htc
              obtain ⟨ih1, ih2, ih3⟩ := ih (toolDictSet d tuid
                { tool_call with
                  status := if !is_error then "completed" else "failed" }) hwf2
              have hsame : ((toolDictSet d tuid
                  { tool_call with
                    status := if !is_error then "completed" else "failed" }).lookup
                    X).isSome = (d.lookup X).isSome := by
                rw [toolDictSet_lookup]
                by_cases hX : X = tuid
                · subst hX
                  simp [hl]
                · simp [hX]
              have hone : (({ tool_call with
                  status := if !is_error then "completed" else "failed" } :
                    ToolCall).id == X) =
                  ((d.lookup X).isSome && (tuid == X)) := by
                by_cases hX : X = tuid
                · subst hX
                  simp [htc, beq_self_eq_true, hl]
                · have h2 : (tuid == X) = false := beq_eq_false_iff_ne.mpr (Ne.symm hX)
                  have h3 : (({ tool_call with
                      status := if !is_error then "completed" else "failed" } :
                        ToolCall).id == X) = false := by
                    simpa [htc] using h2
                  simp [h2, h3]
              rw [hsame] at ih1
              refine ⟨?_, ?_, ?_⟩
              · simp only [processBlocks, processBlock, hl, List.cons_append,
                  List.nil_append, matchedResults]
                rw [stopCount_cons, stopCount_cons, ih1]
                rw [show (toolStopId ⟨"tool_result",
                    [("tool_use_id", .vStr tuid), ("content", .vStr content),
                     ("is_error", .vBool is_error)]⟩ == some X) = false from rfl,
                  toolStopId_stop]
                rw [show ∀ y : String, ((some y == some X)) = (y == X) from fun y => rfl]
                rw [hone]
                simp only [Bool.false_eq_true, if_false]
                omega
              · simp only [processBlocks, processBlock, hl, startedIn]
                rw [ih2, hsame]
              · simpa [processBlocks, processBlock, hl] using ih3

/-- `stopCount` is additive over concatenation. -/
theorem stopCount_append (X : String) (l1 l2 : List ChatStreamEvent) :
    stopCount X (l1 ++ l2) = stopCount X l1 + stopCount X l2 := by
  simp [stopCount, List.countP_append]

/-- `startedIn` over concatenation. -/
theorem startedIn_append (X : String) (a : List ContentBlock) :
    ∀ b, startedIn X (a ++ b) = (startedIn X a || startedIn X b) := by
  induction a with
  | nil => intro b; simp [startedIn]
  | cons hd tl ih =>
      intro b
      cases hd with
      | textBlock t => simpa [startedIn] using ih b
      | thinkingBlock t => simpa [startedIn] using ih b
      | toolUseBlock id name input => simp [startedIn, ih b, Bool.or_assoc]
      | toolResultBlock id c e => simpa [startedIn] using ih b

/-- `matchedResults` over concatenation: the second part counts with the
registration state reached after the first. -/
theorem matchedResults_append (X : String) (a : List ContentBlock) :
    ∀ (started : Bool) (b : List ContentBlock),
      matchedResults started X (a ++ b) =
        matchedResults started X a +
          matchedResults (started || startedIn X a) X b := by
  induction a with
  | nil => intro started b; simp [matchedResults, startedIn]
  | cons hd tl ih =>
      intro started b
      cases hd with
      | textBlock t => simpa [matchedResults, startedIn] using ih started b
      | thinkingBlock t => simpa [matchedResults, startedIn] using ih started b
      | toolUseBlock id name input =>
          simp [matchedResults, startedIn, ih, Bool.or_assoc]
      | toolResultBlock id c e =>
          simp [matchedResults, startedIn, ih started b]
          omega

/-- Turn-level accounting: over the whole upstream message sequence of a
turn starting from a well-formed dict, stop counts match registered
results and open-set membership persists. -/
theorem processMsgs_stops (X : String) (msgs : List UpMsg) :
    ∀ d, wfToolDict d →
      stopCount X (processMsgs d msgs).1 =
        matchedResults ((d.lookup X).isSome) X (blocksOf msgs) ∧
      ((processMsgs d msgs).2.lookup X).isSome =
        ((d.lookup X).isSome || startedIn X (blocksOf msgs)) ∧
      wfToolDict (processMsgs d msgs).2 := by
  induction msgs with
  | nil =>
      intro d hwf
      refine ⟨?_, ?_, hwf⟩
      · simp [processMsgs, stopCount, blocksOf, matchedResults]
      · simp [processMsgs, blocksOf, startedIn]
  | cons m rest ih =>
      intro d hwf
      cases m with
      | systemMessage subtype data =>
          obtain ⟨ih1, ih2, ih3⟩ := ih d hwf
          have hblocks : blocksOf (UpMsg.systemMessage subtype data :: rest) =
              blocksOf rest := by
            simp [blocksOf, blocksOfMsg]
          have hpair : processMsgs d (UpMsg.systemMessage subtype data :: rest) =
              ((processMsg d (UpMsg.systemMessage subtype data)).1 ++
                (processMsgs d rest).1, (processMsgs d rest).2) := by
            have hd2 : (processMsg d (UpMsg.systemMessage subtype data)).2 = d := by
              simp only [processMsg]
              by_cases hsub : (subtype == "init") = true
              · rw [if_pos hsub]
                cases hsid : data.get "session_id" with
                | some sid => rfl
                | none => rfl
              · rw [if_neg hsub]
            simp only [processMsgs]
            rw [hd2]
          have hstop0 : stopCount X
              (processMsg d (UpMsg.systemMessage subtype data)).1 = 0 := by
            simp only [processMsg]
            by_cases hsub : (subtype == "init") = true
            · rw [if_pos hsub]
              cases hsid : data.get "session_id" with
              | some sid => rfl
              | none => rfl
            · rw [if_neg hsub]
              rfl
          refine ⟨?_, ?_, ?_⟩
          · rw [hpair]
            simp only [stopCount_append, hstop0, hblocks]
            simpa using ih1
          · rw [hpair, hblocks]
            simpa using ih2
          · rw [hpair]
            simpa using ih3
      | userMessage =>
          obtain ⟨ih1, ih2, ih3⟩ := ih d hwf
          refine ⟨?_, ?_, ?_⟩
          · simp only [processMsgs, processMsg, List.singleton_append]
            rw [stopCount_cons,
              show (toolStopId ⟨"user_message", [("message", .vDict [])]⟩ ==
                some X) = false from rfl]
            simpa [blocksOf, blocksOfMsg] using ih1
          · simp only [processMsgs, processMsg]
            simpa [blocksOf, blocksOfMsg] using ih2
          · simp only [processMsgs, processMsg]
            simpa using ih3
      | streamEvent =>
          obtain ⟨ih1, ih2, ih3⟩ := ih d hwf
          refine ⟨?_, ?_, ?_⟩
          · simp only [processMsgs, processMsg, List.singleton_append]
            rw [stopCount_cons,
              show (toolStopId ⟨"assistant_partial", [("message", .vDict [])]⟩ ==
                some X) = false from rfl]
            simpa [blocksOf, blocksOfMsg] using ih1
          · simp only [processMsgs, processMsg]
            simpa [blocksOf, blocksOfMsg] using ih2
          · simp only [processMsgs, processMsg]
            simpa using ih3
      | resultMessage =>
          obtain ⟨ih1, ih2, ih3⟩ := ih d hwf
          refine ⟨?_, ?_, ?_⟩
          · simp only [processMsgs, processMsg, List.singleton_append]
            rw [stopCount_cons,
              show (toolStopId ⟨"result", [("message", .vDict [])]⟩ ==
                some X) = false from rfl]
            simpa [blocksOf, blocksOfMsg] using ih1
          · simp only [processMsgs, processMsg]
            simpa [blocksOf, blocksOfMsg] using ih2
          · simp only [processMsgs, processMsg]
            simpa using ih3
      | assistantMessage content =>
          obtain ⟨b1, b2, b3⟩ := processBlocks_stops X content d hwf
          obtain ⟨ih1, ih2, ih3⟩ := ih (processBlocks d content).2 b3
          have hblocks : blocksOf (UpMsg.assistantMessage content :: rest) =
              content ++ blocksOf rest := by
            simp [blocksOf, blocksOfMsg]
          refine ⟨?_, ?_, ?_⟩
          · simp only [processMsgs, processMsg, hblocks]
            rw [List.cons_append, stopCount_cons, stopCount_append,
              stopCount_append,
              show (toolStopId ⟨"assistant_message",
                [("message", .vDict
                  [("content", .vList (content.map encodeBlock))])]⟩ ==
                some X) = false from rfl,
              show stopCount X [⟨"content_stop", []⟩] = 0 from rfl]
            rw [b2] at ih1
            rw [b1, ih1, matchedResults_append]
            simp only [Bool.false_eq_true, if_false]
            omega
          · simp only [processMsgs, processMsg, hblocks]
            rw [ih2, b2, startedIn_append, Bool.or_assoc]
          · simp only [processMsgs, processMsg]
            simpa using ih3

/-- C6 (counterexample): one `tool_use_start` for `t1` followed by two
tool results for `t1` — the dispatch emits two `tool_use_stop` events for
the same id (the claim allows at most one), and `t1` is still in the open
`active_tool_calls` set at end of turn (the claim says the invocation is
dropped once resolved; agent_service.py lines 263-297 never remove it). -/
theorem c6_counterexample_duplicate_stops_and_retained_entry :
    stopCount "t1" (stream_chat_dispatch "agent" "deepseek" ["human"]
      (.ok [.assistantMessage [.toolUseBlock "t1" "Bash" [],
        .toolResultBlock "t1" "ok" false,
        .toolResultBlock "t1" "again" false]])) = 2 ∧
    ((processMsgs [] [.assistantMessage [.toolUseBlock "t1" "Bash" [],
        .toolResultBlock "t1" "ok" false,
        .toolResultBlock "t1" "again" false]]).2.lookup "t1").isSome = true ∧
    (stream_chat_dispatch "agent" "deepseek" ["human"]
      (.ok [.assistantMessage [.toolUseBlock "t1" "Bash" [],
        .toolResultBlock "t1" "ok" false,
        .toolResultBlock "t1" "again" false]])).map (·.event_type) =
      ["thinking_start", "thinking_stop", "message_start", "assistant_message",
       "tool_use_start", "tool_result", "tool_use_stop", "tool_result",
       "tool_use_stop", "content_stop", "message_stop"] :=
  ⟨by rfl, by rfl, by rfl⟩

/-- C6 (amended): within every turn, the dispatch emits `tool_use_stop`
for id `X` exactly once per tool-result for `X` observed while `X` is
registered — so a stop occurs only after a `tool_use_start` for `X` and an
observed tool-result for `X`, and there is at most one stop exactly when
at most one such result arrives — but the open `ToolInvocation` is never
dropped: `X` is still in the open set at end of turn iff some
`tool_use_start` registered it, and each further result for `X` emits a
further stop. -/
theorem c6_stop_accounting_and_open_set_retention
    (X agent model : String) (mem : List String) (msgs : List UpMsg) :
    stopCount X (stream_chat_dispatch agent model mem (.ok msgs)) =
      matchedResults false X (blocksOf msgs) ∧
    ((processMsgs [] msgs).2.lookup X).isSome = startedIn X (blocksOf msgs) := by
  obtain ⟨h1, h2, _⟩ := processMsgs_stops X msgs []
    (by intro p hp; simp at hp)
  constructor
  · simp only [stream_chat_dispatch, streamChatBody, thinkingStartEvent,
      messageStartEvent]
    rw [stopCount_cons, stopCount_cons, stopCount_cons, stopCount_append,
      show (toolStopId ⟨"thinking_start", [("message", .vStr "Thinking...")]⟩ ==
        some X) = false from rfl,
      show (toolStopId ⟨"thinking_stop", []⟩ == some X) = false from rfl,
      show ∀ p : Payload, (toolStopId ⟨"message_start", p⟩ == some X) = false
        from fun p => rfl,
      show stopCount X [⟨"message_stop", [("stop_reason", .vStr "end_turn")]⟩] = 0
        from rfl]
    have h1s : stopCount X (processMsgs [] msgs).1 =
        matchedResults false X (blocksOf msgs) := by
      simpa using h1
    rw [h1s]
    simp
  · simpa using h2
